import Mathlib

/-!
Verification of the jupiter-swap-api-client data model
(`src/jupiter-swap-api-client/src/quote.rs` and
`src/jupiter-swap-api-client/src/transaction_config.rs`).

The Rust code is a serde-based JSON data model.  We embed it shallowly:

* JSON values are modelled by the inductive `Json` below, with numbers
  modelled as integers (every numeric field of this data model is an
  integer type; the two floating-point fields, `ComputeUnitScore.max_penalty_bps`
  and `QuoteResponse.time_taken`, are inert payloads that no operation here
  inspects and are carried opaquely).
* serde `Serialize`/`Deserialize` impls (derived or manual) become explicit
  `Json`-producing/consuming functions, following serde's documented
  semantics: untagged enums try variants in declaration order; a derived
  `Serialize` for an untagged enum serializes a unit variant as the unit
  value, i.e. JSON `null`; externally tagged enums decode from a
  single-entry object keyed by the variant name (or a bare string for unit
  variants); `Option` fields absent from the input decode to `none`;
  struct-level `serde(default)` fills absent fields from `Default::default()`.
* Machine integers (`u8`/`u16`/`u32`/`u64`) are `Nat` with explicit range
  checks `< 2^w` where the codec checks them.
-/

namespace JupiterSwap

/-- Shallow model of a JSON value (`serde_json::Value`).  Numbers are
modelled as integers, see the header comment. -/
inductive Json where
  | null
  | bool (b : Bool)
  | num (n : Int)
  | str (s : String)
  | arr (items : List Json)
  | obj (fields : List (String × Json))

/-- First value stored under `key` in an object's field list: the lookup
serde's map-based deserializers perform. -/
def findField (key : String) : List (String × Json) → Option Json
  | [] => none
  | (k, v) :: rest => if k = key then some v else findField key rest

/-- Decoding a JSON value as a `bool`. -/
def decodeBool : Json → Option Bool
  | .bool b => some b
  | _ => none

/-- Decoding a JSON value as a `u64`: a non-negative number below `2^64`. -/
def decodeU64 : Json → Option Nat
  | .num (.ofNat n) => if n < 2 ^ 64 then some n else none
  | _ => none

/-- Decoding a JSON value as a `u32`: a non-negative number below `2^32`. -/
def decodeU32 : Json → Option Nat
  | .num (.ofNat n) => if n < 2 ^ 32 then some n else none
  | _ => none

/-- Decoding a JSON value as a `u16`: a non-negative number below `2^16`. -/
def decodeU16 : Json → Option Nat
  | .num (.ofNat n) => if n < 2 ^ 16 then some n else none
  | _ => none

/-- Decoding a JSON value as a `u8`: a non-negative number below `2^8`. -/
def decodeU8 : Json → Option Nat
  | .num (.ofNat n) => if n < 2 ^ 8 then some n else none
  | _ => none

/-- Model of the `auto`/`disabled` helper deserializers in
`transaction_config.rs` (lines 105-129): a single-unit-variant helper enum
renamed to `name`.  serde_json accepts an externally tagged unit variant
either as the bare string `name` or as the single-entry object
`{ name: null }` (the map form deserializes `()` from the payload, and `()`
accepts exactly `null`). -/
def unitVariant (name : String) : Json → Bool
  | .str s => s == name
  | .obj [(k, .null)] => k == name
  | _ => false

/-- `ComputeUnitPriceMicroLamports` from `transaction_config.rs` lines 8-15:
an untagged enum with variants `MicroLamports(u64)` and `Auto` (the latter
decoded via the `auto` helper). -/
inductive ComputeUnitPriceMicroLamports where
  | MicroLamports (micro_lamports : Nat)
  | Auto
deriving DecidableEq

/-- Model of the derived `Serialize` for `ComputeUnitPriceMicroLamports`
(an untagged enum): `MicroLamports(n)` serializes its payload, a bare
number; the unit variant `Auto` serializes its content `()`, which
serde_json emits as `null`.  (`deserialize_with = "auto"` affects only
deserialization; the derived serializer does not emit `"auto"`.) -/
def serializeComputeUnitPrice : ComputeUnitPriceMicroLamports → Json
  | .MicroLamports n => .num n
  | .Auto => .null

/-- Model of the derived `Deserialize` for `ComputeUnitPriceMicroLamports`:
untagged, so variants are tried in declaration order — first
`MicroLamports(u64)` (a bare number in `u64` range), then `Auto` via the
`auto` helper (the string `"auto"`, case-sensitively, or `{ "auto": null }`). -/
def decodeComputeUnitPrice (j : Json) : Option ComputeUnitPriceMicroLamports :=
  match decodeU64 j with
  | some n => some (.MicroLamports n)
  | none => if unitVariant "auto" j then some .Auto else none

/-- `PriorityLevel` from `transaction_config.rs` lines 17-23. -/
inductive PriorityLevel where
  | Medium
  | High
  | VeryHigh
deriving DecidableEq

/-- Derived `Serialize` for `PriorityLevel` with `rename_all = "camelCase"`:
each unit variant serializes as its camelCase name string. -/
def serializePriorityLevel : PriorityLevel → Json
  | .Medium => .str "medium"
  | .High => .str "high"
  | .VeryHigh => .str "veryHigh"

/-- Derived `Deserialize` for `PriorityLevel`: the camelCase variant-name
strings, exactly. -/
def decodePriorityLevel : Json → Option PriorityLevel
  | .str "medium" => some .Medium
  | .str "high" => some .High
  | .str "veryHigh" => some .VeryHigh
  | _ => none

/-- `PrioritizationFeeLamports` from `transaction_config.rs` lines 25-44. -/
inductive PrioritizationFeeLamports where
  | AutoMultiplier (multiplier : Nat)
  | JitoTipLamports (lamports : Nat)
  | PriorityLevelWithMaxLamports (priority_level : PriorityLevel)
      (max_lamports : Nat) (global : Bool)
  | Auto
  | Lamports (lamports : Nat)
  | Disabled
deriving DecidableEq

/-- Model of the manual `impl Serialize for PrioritizationFeeLamports`
(`transaction_config.rs` lines 46-103): each variant emits its canonical
wire shape via camelCase wrapper structs, `"auto"`, a bare number, or
`"disabled"`. -/
def serializePrioritizationFee : PrioritizationFeeLamports → Json
  | .AutoMultiplier m => .obj [("autoMultiplier", .num m)]
  | .JitoTipLamports l => .obj [("jitoTipLamports", .num l)]
  | .PriorityLevelWithMaxLamports pl ml g =>
      .obj [("priorityLevelWithMaxLamports",
        .obj [("priorityLevel", serializePriorityLevel pl),
              ("maxLamports", .num ml),
              ("global", .bool g)])]
  | .Auto => .str "auto"
  | .Lamports l => .num l
  | .Disabled => .str "disabled"

/-- The `global` field of the `PriorityLevelWithMaxLamports` payload:
marked `serde(default)`, so an absent key yields `false`. -/
def decodeGlobalField (fields : List (String × Json)) : Option Bool :=
  match findField "global" fields with
  | none => some false
  | some gv => decodeBool gv

/-- Decoding the payload of the `PriorityLevelWithMaxLamports` struct
variant: fields `priorityLevel` and `maxLamports` are required, `global`
has `serde(default)` (i.e. `false` when absent); unknown fields are
ignored (serde's default). -/
def decodePriorityLevelWithMax (j : Json) : Option PrioritizationFeeLamports :=
  match j with
  | .obj fields => do
      let pl ← (findField "priorityLevel" fields).bind decodePriorityLevel
      let ml ← (findField "maxLamports" fields).bind decodeU64
      let g ← decodeGlobalField fields
      pure (.PriorityLevelWithMaxLamports pl ml g)
  | _ => none

/-- The externally tagged part of `PrioritizationFeeLamports`
deserialization: the three variants not marked `untagged`
(`autoMultiplier`, `jitoTipLamports`, `priorityLevelWithMaxLamports`),
matched from a single-entry object keyed by the camelCase variant name. -/
def decodePrioritizationFeeTagged (j : Json) : Option PrioritizationFeeLamports :=
  match j with
  | .obj [(k, v)] =>
      if k = "autoMultiplier" then (decodeU32 v).map .AutoMultiplier
      else if k = "jitoTipLamports" then (decodeU64 v).map .JitoTipLamports
      else if k = "priorityLevelWithMaxLamports" then decodePriorityLevelWithMax v
      else none
  | _ => none

/-- The `untagged` tail of `PrioritizationFeeLamports` deserialization,
tried in declaration order after the tagged attempt fails: `Auto` via the
`auto` helper, then `Lamports(u64)` from a bare number, then `Disabled`
via the `disabled` helper. -/
def decodePrioritizationFeeUntagged (j : Json) : Option PrioritizationFeeLamports :=
  if unitVariant "auto" j then some .Auto
  else match decodeU64 j with
    | some n => some (.Lamports n)
    | none => if unitVariant "disabled" j then some .Disabled else none

/-- Full `Deserialize` model for `PrioritizationFeeLamports`: the
externally tagged shapes first, then the untagged fallbacks in order. -/
def decodePrioritizationFee (j : Json) : Option PrioritizationFeeLamports :=
  match decodePrioritizationFeeTagged j with
  | some v => some v
  | none => decodePrioritizationFeeUntagged j

/-- `SwapMode` from `quote.rs` lines 36-41 (default `ExactIn`). -/
inductive SwapMode where
  | ExactIn
  | ExactOut
deriving DecidableEq

/-- Model of `impl FromStr for SwapMode` (`quote.rs` lines 43-53): exact
match on `"ExactIn"`/`"ExactOut"`, otherwise the error
`"{s} is not a valid SwapMode"`. -/
def SwapMode.fromStr (s : String) : Except String SwapMode :=
  if s = "ExactIn" then .ok .ExactIn
  else if s = "ExactOut" then .ok .ExactOut
  else .error (s ++ " is not a valid SwapMode")

/-- Derived `Serialize` for `SwapMode` (no rename attribute): each unit
variant serializes as its name string. -/
def serializeSwapMode : SwapMode → Json
  | .ExactIn => .str "ExactIn"
  | .ExactOut => .str "ExactOut"

/-- Decimal digits of `n`, most significant first (the digit list behind
Rust's `u64::to_string`). -/
def natDigits (n : Nat) : List Nat :=
  if _h : n < 10 then [n] else natDigits (n / 10) ++ [n % 10]
decreasing_by exact Nat.div_lt_self (by omega) (by omega)

/-- The character for a single decimal digit: code point `48 + d`. -/
def digitToChar (d : Nat) : Char :=
  Char.ofNat (48 + d)

/-- The decimal digit named by a character, if any: code points 48-57. -/
def charToDigit (c : Char) : Option Nat :=
  if 48 ≤ c.toNat ∧ c.toNat ≤ 57 then some (c.toNat - 48) else none

/-- Reading a most-significant-first digit list back as a number. -/
def digitsVal (ds : List Nat) : Nat :=
  ds.foldl (fun acc d => 10 * acc + d) 0

/-- The decimal string of `n` (Rust's `u64::to_string`). -/
def decimalString (n : Nat) : String :=
  String.mk ((natDigits n).map digitToChar)

/-- Accumulating decimal parse of a character list; fails on the first
non-digit character. -/
def parseDecimalAux : List Nat → List Char → Option Nat
  | acc, [] => some (digitsVal acc)
  | acc, c :: cs =>
      match charToDigit c with
      | some d => parseDecimalAux (acc ++ [d]) cs
      | none => none

/-- Decimal parse of a string into a `u64` (Rust's `u64::from_str`): at
least one digit, digits only, and the value must fit in 64 bits. -/
def parseU64 (s : String) : Option Nat :=
  if s.toList = [] then none
  else (parseDecimalAux [] s.toList).bind fun n =>
    if n < 2 ^ 64 then some n else none

/-- Modelled from the spec: the `field_as_string` serde helper module
(`crate::serde_helpers::field_as_string`, not part of the sources under
review) applied to a `u64` amount.  Per spec §4.1, encode converts the
value to its decimal string and emits a JSON string. -/
def serializeU64Field (a : Nat) : Json :=
  .str (decimalString a)

/-- Modelled from the spec: decode side of `field_as_string` for a `u64`
amount.  Per spec §4.1, decode expects a JSON string and parses it into
the typed value, failing otherwise. -/
def decodeU64Field : Json → Option Nat
  | .str s => parseU64 s
  | _ => none

/-- Modelled from the spec: account identifiers (`solana_sdk::pubkey::Pubkey`,
an external collaborator) are opaque canonical strings; their base-58
validation lives outside this model and no claim under review exercises
it. -/
def Pubkey := String

/-- Modelled from the spec: the `option_field_as_string` serde helper
(`crate::serde_helpers::option_field_as_string`, not part of the sources
under review) applied to an optional identifier: wire-null means no
value, a string is parsed as the identifier, anything else fails. -/
def decodeOptPubkey : Json → Option (Option Pubkey)
  | .null => some none
  | .str s => some (some s)
  | _ => none

/-- Decoding `Option<T>` from a present value: `null` is `none`, anything
else must decode as a `T`. -/
def decodeOptionWith {α : Type} (dec : Json → Option α) : Json → Option (Option α)
  | .null => some none
  | v => (dec v).map some

/-- Decoding `Vec<T>` from a JSON array. -/
def decodeListWith {α : Type} (dec : Json → Option α) : Json → Option (List α)
  | .arr items => items.mapM dec
  | _ => none

/-- Comma delimited list of dex labels (`quote.rs` line 193). -/
def Dexes := String

/-- `ComputeUnitScore` from `quote.rs` lines 55-58.  The `max_penalty_bps`
payload is an `f64` in the source; it is inert data for every operation
modelled here and is carried as a rational. -/
structure ComputeUnitScore where
  max_penalty_bps : Option Rat

/-- `QuoteRequest` from `quote.rs` lines 60-114, fields in source order. -/
structure QuoteRequest where
  input_mint : Pubkey
  output_mint : Pubkey
  amount : Nat
  swap_mode : Option SwapMode
  slippage_bps : Nat
  auto_slippage : Option Bool
  max_auto_slippage_bps : Option Nat
  compute_auto_slippage : Bool
  auto_slippage_collision_usd_value : Option Nat
  minimize_slippage : Option Bool
  platform_fee_bps : Option Nat
  dexes : Option Dexes
  excluded_dexes : Option Dexes
  only_direct_routes : Option Bool
  as_legacy_transaction : Option Bool
  restrict_intermediate_tokens : Option Bool
  max_accounts : Option Nat
  quote_type : Option String
  quote_args : Option (List (String × String))
  prefer_liquid_dexes : Option Bool
  compute_unit_score : Option ComputeUnitScore
  routing_constraints : Option String
  token_category_based_intermediate_tokens : Option Bool

/-- `InternalQuoteRequest` from `quote.rs` lines 118-164, fields in source
order.  Note the source keeps `quote_type` and `prefer_liquid_dexes` here;
the structure has no `quote_args`, `compute_unit_score`,
`routing_constraints` or `token_category_based_intermediate_tokens`
fields. -/
structure InternalQuoteRequest where
  input_mint : Pubkey
  output_mint : Pubkey
  amount : Nat
  swap_mode : Option SwapMode
  slippage_bps : Nat
  auto_slippage : Option Bool
  max_auto_slippage_bps : Option Nat
  compute_auto_slippage : Bool
  auto_slippage_collision_usd_value : Option Nat
  minimize_slippage : Option Bool
  platform_fee_bps : Option Nat
  dexes : Option Dexes
  excluded_dexes : Option Dexes
  only_direct_routes : Option Bool
  as_legacy_transaction : Option Bool
  restrict_intermediate_tokens : Option Bool
  max_accounts : Option Nat
  quote_type : Option String
  prefer_liquid_dexes : Option Bool

/-- Model of `impl From<QuoteRequest> for InternalQuoteRequest`
(`quote.rs` lines 166-190): a direct field copy. -/
def InternalQuoteRequest.ofQuoteRequest (request : QuoteRequest) : InternalQuoteRequest where
  input_mint := request.input_mint
  output_mint := request.output_mint
  amount := request.amount
  swap_mode := request.swap_mode
  slippage_bps := request.slippage_bps
  auto_slippage := request.auto_slippage
  max_auto_slippage_bps := request.max_auto_slippage_bps
  compute_auto_slippage := request.compute_auto_slippage
  auto_slippage_collision_usd_value := request.auto_slippage_collision_usd_value
  minimize_slippage := request.minimize_slippage
  platform_fee_bps := request.platform_fee_bps
  dexes := request.dexes
  excluded_dexes := request.excluded_dexes
  only_direct_routes := request.only_direct_routes
  as_legacy_transaction := request.as_legacy_transaction
  restrict_intermediate_tokens := request.restrict_intermediate_tokens
  max_accounts := request.max_accounts
  quote_type := request.quote_type
  prefer_liquid_dexes := request.prefer_liquid_dexes

/-- `PlatformFee` from `quote.rs` lines 195-201. -/
structure PlatformFee where
  amount : Nat
  fee_bps : Nat

/-- Derived `Serialize` for `PlatformFee` (camelCase): `amount` uses
`field_as_string`, `feeBps` is a bare number. -/
def serializePlatformFee (pf : PlatformFee) : Json :=
  .obj [("amount", serializeU64Field pf.amount), ("feeBps", .num pf.fee_bps)]

/-- `QuoteResponse` from `quote.rs` lines 203-230.  `price_impact_pct` is
an externally-defined arbitrary-precision decimal carried as its canonical
textual form; `route_plan` is the externally-defined
`RoutePlanWithMetadata` carried as its wire value; `time_taken` is an
`f64` carried as its wire value.  None of the claims under review inspect
those three payloads. -/
structure QuoteResponse where
  input_mint : Pubkey
  in_amount : Nat
  output_mint : Pubkey
  out_amount : Nat
  other_amount_threshold : Nat
  swap_mode : SwapMode
  slippage_bps : Nat
  computed_auto_slippage : Option Nat
  uses_quote_minimizing_slippage : Option Bool
  platform_fee : Option PlatformFee
  price_impact_pct : String
  route_plan : Json
  context_slot : Nat
  time_taken : Json

/-- Derived `Serialize` for `QuoteResponse` (camelCase), as the ordered
field list of the output object: `computedAutoSlippage` and
`usesQuoteMinimizingSlippage` carry `skip_serializing_if = "Option::is_none"`
and are omitted when `none`; `platformFee` has no skip attribute and is
always emitted (`null` when `none`). -/
def serializeQuoteResponseFields (qr : QuoteResponse) : List (String × Json) :=
  [("inputMint", .str qr.input_mint),
   ("inAmount", serializeU64Field qr.in_amount),
   ("outputMint", .str qr.output_mint),
   ("outAmount", serializeU64Field qr.out_amount),
   ("otherAmountThreshold", serializeU64Field qr.other_amount_threshold),
   ("swapMode", serializeSwapMode qr.swap_mode),
   ("slippageBps", .num qr.slippage_bps)]
  ++ (match qr.computed_auto_slippage with
      | none => []
      | some v => [("computedAutoSlippage", .num v)])
  ++ (match qr.uses_quote_minimizing_slippage with
      | none => []
      | some b => [("usesQuoteMinimizingSlippage", .bool b)])
  ++ [("platformFee", match qr.platform_fee with
        | none => .null
        | some pf => serializePlatformFee pf),
      ("priceImpactPct", .str qr.price_impact_pct),
      ("routePlan", qr.route_plan),
      ("contextSlot", .num qr.context_slot),
      ("timeTaken", qr.time_taken)]

/-- The serialized `QuoteResponse` object. -/
def serializeQuoteResponse (qr : QuoteResponse) : Json :=
  .obj (serializeQuoteResponseFields qr)

/-- `KeyedUiAccount` from `transaction_config.rs` lines 225-232.  The
`ui_account` field is the externally-defined
`solana_account_decoder::UiAccount`, opaque to this model; since
`#[serde(flatten)]` merges its wire fields into the containing object, we
represent it by that list of wire fields. -/
structure KeyedUiAccount where
  pubkey : String
  ui_account : List (String × Json)
  params : Option Json

/-- Derived `Serialize` for `KeyedUiAccount` as the ordered field list:
`pubkey`, then the flattened `ui_account` fields at the same nesting
level, then `params` — an `Option<Value>` with no skip attribute, so
`none` is emitted as `null`. -/
def serializeKeyedUiAccountFields (k : KeyedUiAccount) : List (String × Json) :=
  ("pubkey", .str k.pubkey) :: k.ui_account
    ++ [("params", match k.params with | none => .null | some v => v)]

/-- The serialized `KeyedUiAccount` object. -/
def serializeKeyedUiAccount (k : KeyedUiAccount) : Json :=
  .obj (serializeKeyedUiAccountFields k)

/-- A field key the flattened `ui_account` receives: any key not consumed
by the named `pubkey`/`params` fields. -/
def isFlattenedKey (kv : String × Json) : Bool :=
  kv.1 ≠ "pubkey" ∧ kv.1 ≠ "params"

/-- Derived `Deserialize` for `KeyedUiAccount`: `pubkey` is a required
string; `params` is an `Option<Value>`, so it may be absent or `null`
(both give `none`); every remaining field of the object is handed to the
flattened `ui_account` (serde's flatten collects the keys no named field
consumed). -/
def decodeKeyedUiAccount : Json → Option KeyedUiAccount
  | .obj fields => do
      let pk ← match findField "pubkey" fields with
        | some (.str s) => some s
        | _ => none
      let params : Option Json := match findField "params" fields with
        | none => none
        | some .null => none
        | some v => some v
      let rest := fields.filter isFlattenedKey
      pure ⟨pk, rest, params⟩
  | _ => none

/-- `DynamicSlippageSettings` from `transaction_config.rs` lines 131-136. -/
structure DynamicSlippageSettings where
  min_bps : Option Nat
  max_bps : Option Nat

/-- Derived `Deserialize` for `DynamicSlippageSettings`: both fields are
`Option<u16>`, absent or `null` giving `none`. -/
def decodeDynamicSlippage : Json → Option DynamicSlippageSettings
  | .obj fields => do
      let minB ← match findField "minBps" fields with
        | none => some none
        | some v => decodeOptionWith decodeU16 v
      let maxB ← match findField "maxBps" fields with
        | none => some none
        | some v => decodeOptionWith decodeU16 v
      pure ⟨minB, maxB⟩
  | _ => none

/-- `TransactionConfig` from `transaction_config.rs` lines 138-198, fields
in source order. -/
structure TransactionConfig where
  wrap_and_unwrap_sol : Bool
  allow_optimized_wrapped_sol_token_account : Bool
  fee_account : Option Pubkey
  destination_token_account : Option Pubkey
  tracking_account : Option Pubkey
  compute_unit_price_micro_lamports : Option ComputeUnitPriceMicroLamports
  prioritization_fee_lamports : Option PrioritizationFeeLamports
  dynamic_compute_unit_limit : Bool
  as_legacy_transaction : Bool
  use_shared_accounts : Option Bool
  use_token_ledger : Bool
  skip_user_accounts_rpc_calls : Bool
  keyed_ui_accounts : Option (List KeyedUiAccount)
  program_authority_id : Option Nat
  dynamic_slippage : Option DynamicSlippageSettings
  blockhash_slots_to_expiry : Option Nat
  correct_last_valid_block_height : Bool

/-- Model of `impl Default for TransactionConfig`
(`transaction_config.rs` lines 201-223). -/
def TransactionConfig.default : TransactionConfig where
  wrap_and_unwrap_sol := true
  allow_optimized_wrapped_sol_token_account := false
  fee_account := none
  destination_token_account := none
  tracking_account := none
  compute_unit_price_micro_lamports := none
  prioritization_fee_lamports := none
  dynamic_compute_unit_limit := false
  as_legacy_transaction := false
  use_shared_accounts := none
  use_token_ledger := false
  skip_user_accounts_rpc_calls := false
  keyed_ui_accounts := none
  program_authority_id := none
  dynamic_slippage := none
  blockhash_slots_to_expiry := none
  correct_last_valid_block_height := false

/-- One field of a struct-level-`serde(default)` deserialization: absent
keys take the given default, present values must decode. -/
def decField {α : Type} (key : String) (dflt : α) (dec : Json → Option α)
    (fields : List (String × Json)) : Option α :=
  match findField key fields with
  | none => some dflt
  | some v => dec v

/-- Derived `Deserialize` for `TransactionConfig` (camelCase, struct-level
`serde(default)`): every field absent from the object is taken from
`TransactionConfig.default`; present fields decode per their type, with
the `fee_account`/`destination_token_account`/`tracking_account`
identifiers going through `option_field_as_string`. -/
def decodeTransactionConfig : Json → Option TransactionConfig
  | .obj fields => do
      let wa ← decField "wrapAndUnwrapSol" true decodeBool fields
      let ao ← decField "allowOptimizedWrappedSolTokenAccount" false decodeBool fields
      let fa ← decField "feeAccount" none decodeOptPubkey fields
      let da ← decField "destinationTokenAccount" none decodeOptPubkey fields
      let ta ← decField "trackingAccount" none decodeOptPubkey fields
      let cu ← decField "computeUnitPriceMicroLamports" none
        (decodeOptionWith decodeComputeUnitPrice) fields
      let pf ← decField "prioritizationFeeLamports" none
        (decodeOptionWith decodePrioritizationFee) fields
      let dc ← decField "dynamicComputeUnitLimit" false decodeBool fields
      let al ← decField "asLegacyTransaction" false decodeBool fields
      let us ← decField "useSharedAccounts" none (decodeOptionWith decodeBool) fields
      let ul ← decField "useTokenLedger" false decodeBool fields
      let sk ← decField "skipUserAccountsRpcCalls" false decodeBool fields
      let ka ← decField "keyedUiAccounts" none
        (decodeOptionWith (decodeListWith decodeKeyedUiAccount)) fields
      let pa ← decField "programAuthorityId" none (decodeOptionWith decodeU8) fields
      let ds ← decField "dynamicSlippage" none (decodeOptionWith decodeDynamicSlippage) fields
      let bs ← decField "blockhashSlotsToExpiry" none (decodeOptionWith decodeU8) fields
      let cl ← decField "correctLastValidBlockHeight" false decodeBool fields
      pure ⟨wa, ao, fa, da, ta, cu, pf, dc, al, us, ul, sk, ka, pa, ds, bs, cl⟩
  | _ => none

/-- The wire shapes a decoded `ComputeUnitPriceMicroLamports` variant can
come from: a bare `u64` number for `MicroLamports`, the `auto` helper's
two accepted forms for `Auto`. -/
def computeUnitPriceShape : ComputeUnitPriceMicroLamports → Json → Prop
  | .MicroLamports n, j => j = .num n
  | .Auto, j => j = .str "auto" ∨ j = .obj [("auto", .null)]

/-- The wire shapes a decoded `PrioritizationFeeLamports` variant can come
from: the three single-entry tagged objects, the `auto`/`disabled`
helpers' accepted forms, and a bare `u64` number. -/
def prioritizationFeeShape : PrioritizationFeeLamports → Json → Prop
  | .AutoMultiplier m, j => j = .obj [("autoMultiplier", .num m)]
  | .JitoTipLamports l, j => j = .obj [("jitoTipLamports", .num l)]
  | .PriorityLevelWithMaxLamports _ _ _, j =>
      ∃ inner, j = .obj [("priorityLevelWithMaxLamports", inner)]
  | .Auto, j => j = .str "auto" ∨ j = .obj [("auto", .null)]
  | .Lamports l, j => j = .num l
  | .Disabled, j => j = .str "disabled" ∨ j = .obj [("disabled", .null)]

/-- A concrete quote request used to evaluate the projection claims. -/
def exampleQuoteRequest : QuoteRequest where
  input_mint := "So11111111111111111111111111111111111111112"
  output_mint := "EPjFWdd5AufqSSqeM2qN1xzybapC8G4wEGGkZwyTDt1v"
  amount := 1000000
  swap_mode := none
  slippage_bps := 50
  auto_slippage := none
  max_auto_slippage_bps := none
  compute_auto_slippage := false
  auto_slippage_collision_usd_value := none
  minimize_slippage := none
  platform_fee_bps := none
  dexes := none
  excluded_dexes := none
  only_direct_routes := none
  as_legacy_transaction := none
  restrict_intermediate_tokens := none
  max_accounts := none
  quote_type := some "metis"
  quote_args := some [("intermediateTokens", "5")]
  prefer_liquid_dexes := none
  compute_unit_score := some ⟨some 25⟩
  routing_constraints := some "strict"
  token_category_based_intermediate_tokens := some true

/-- A concrete keyed account used to evaluate the `KeyedUiAccount`
claims: one flattened account-state field, no `params`. -/
def exampleKeyedUiAccount : KeyedUiAccount where
  pubkey := "9xQeWvG816bUx9EPjHmaT23yvVM2ZWbrrpZb9PusVFin"
  ui_account := [("lamports", .num 2039280), ("owner", .str "11111111111111111111111111111111")]
  params := none

/-! ## Helper lemmas -/

theorem natDigits_lt_ten (n : Nat) : ∀ d ∈ natDigits n, d < 10 := by
  induction n using Nat.strong_induction_on with
  | _ n ih =>
    rw [natDigits]
    split
    · intro d hd
      simp only [List.mem_singleton] at hd
      omega
    · intro d hd
      rw [List.mem_append] at hd
      rcases hd with hd | hd
      · exact ih (n / 10) (Nat.div_lt_self (by omega) (by omega)) d hd
      · simp only [List.mem_singleton] at hd
        subst hd
        exact Nat.mod_lt _ (by omega)

theorem natDigits_ne_nil (n : Nat) : natDigits n ≠ [] := by
  rw [natDigits]
  split
  · simp
  · simp

theorem digitsVal_append (ds : List Nat) (d : Nat) :
    digitsVal (ds ++ [d]) = 10 * digitsVal ds + d := by
  simp [digitsVal, List.foldl_append]

theorem digitsVal_natDigits (n : Nat) : digitsVal (natDigits n) = n := by
  induction n using Nat.strong_induction_on with
  | _ n ih =>
    rw [natDigits]
    split
    · simp [digitsVal]
    · rw [digitsVal_append, ih (n / 10) (Nat.div_lt_self (by omega) (by omega))]
      omega

theorem charToDigit_digitToChar (d : Nat) (h : d < 10) :
    charToDigit (digitToChar d) = some d := by
  interval_cases d <;> rfl

theorem parseDecimalAux_of_digits (ds : List Nat) (acc : List Nat)
    (h : ∀ d ∈ ds, d < 10) :
    parseDecimalAux acc (ds.map digitToChar) = some (digitsVal (acc ++ ds)) := by
  induction ds generalizing acc with
  | nil => simp [parseDecimalAux]
  | cons d ds ih =>
    simp only [List.map_cons, parseDecimalAux,
      charToDigit_digitToChar d (h d (List.mem_cons_self ..))]
    rw [ih (acc ++ [d]) (fun x hx => h x (List.mem_cons_of_mem d hx))]
    simp [List.append_assoc]

theorem decimalString_toList (n : Nat) :
    (decimalString n).toList = (natDigits n).map digitToChar := rfl

theorem parseU64_decimalString (a : Nat) (h : a < 2 ^ 64) :
    parseU64 (decimalString a) = some a := by
  have hne : (natDigits a).map digitToChar ≠ [] := by
    simp [natDigits_ne_nil a]
  rw [parseU64, decimalString_toList, if_neg hne,
    parseDecimalAux_of_digits (natDigits a) [] (natDigits_lt_ten a)]
  simp only [List.nil_append, digitsVal_natDigits, Option.bind_eq_bind,
    Option.some_bind]
  rw [if_pos h]

/-! ## Claims -/

/-- C7: for every `u64` value `a`, the `field_as_string` codec emits the
decimal string of `a` as a JSON string (not a number), and decoding that
string yields exactly `a` — including values above `2^53`. -/
theorem u64_field_as_string_roundtrip (a : Nat) (h : a < 2 ^ 64) :
    serializeU64Field a = .str (decimalString a) ∧
    decodeU64Field (serializeU64Field a) = some a := by
  refine ⟨rfl, ?_⟩
  show parseU64 (decimalString a) = some a
  exact parseU64_decimalString a h

/-- Witness for C7 at a value above `2^53`. -/
theorem u64_field_as_string_roundtrip_witness :
    2 ^ 63 + 3 < 2 ^ 64 ∧
    (serializeU64Field (2 ^ 63 + 3) = .str (decimalString (2 ^ 63 + 3)) ∧
     decodeU64Field (serializeU64Field (2 ^ 63 + 3)) = some (2 ^ 63 + 3)) :=
  ⟨by norm_num, u64_field_as_string_roundtrip (2 ^ 63 + 3) (by norm_num)⟩

/-- C8: `SwapMode` string conversion maps exactly `"ExactIn"` to `ExactIn`
and `"ExactOut"` to `ExactOut`, and every other string (case-sensitively)
yields the descriptive error naming the invalid value. -/
theorem swapMode_fromStr_spec (s : String)
    (h1 : s ≠ "ExactIn") (h2 : s ≠ "ExactOut") :
    SwapMode.fromStr "ExactIn" = .ok .ExactIn ∧
    SwapMode.fromStr "ExactOut" = .ok .ExactOut ∧
    SwapMode.fromStr s = .error (s ++ " is not a valid SwapMode") := by
  refine ⟨rfl, rfl, ?_⟩
  simp [SwapMode.fromStr, h1, h2]

/-- Witness for C8 at the spec's example `"Sideways"`. -/
theorem swapMode_fromStr_spec_witness :
    "Sideways" ≠ "ExactIn" ∧ "Sideways" ≠ "ExactOut" ∧
    (SwapMode.fromStr "ExactIn" = .ok .ExactIn ∧
     SwapMode.fromStr "ExactOut" = .ok .ExactOut ∧
     SwapMode.fromStr "Sideways" = .error ("Sideways" ++ " is not a valid SwapMode")) :=
  ⟨by decide, by decide, swapMode_fromStr_spec "Sideways" (by decide) (by decide)⟩

/-- C1 (evidence for the code bug): the derived serializer of the untagged
enum emits `null` for `Auto` — not the string `"auto"` — so the serialized
`Auto` fails to decode and the variant does not round-trip; the decode
side does accept exactly `"auto"` and rejects `"Auto"` and other strings. -/
theorem computeUnitPrice_auto_encode_bug :
    serializeComputeUnitPrice .Auto = .null ∧
    decodeComputeUnitPrice (serializeComputeUnitPrice .Auto) = none ∧
    decodeComputeUnitPrice (.str "auto") = some .Auto ∧
    decodeComputeUnitPrice (.str "Auto") = none ∧
    decodeComputeUnitPrice (.str "automatic") = none :=
  ⟨rfl, rfl, rfl, rfl, rfl⟩

/-- C3 (counterexample): the projection to `InternalQuoteRequest` keeps
`quote_type` — on an input whose `quote_type` is `some "metis"`, the
result's `quote_type` is still `some "metis"`, so the result does carry a
`quote_type`. -/
theorem internalQuoteRequest_carries_quote_type :
    exampleQuoteRequest.quote_type = some "metis" ∧
    (InternalQuoteRequest.ofQuoteRequest exampleQuoteRequest).quote_type = some "metis" :=
  ⟨rfl, rfl⟩

/-- C3 (amended): the projection produces identical shared fields —
`quote_type` among them, copied unchanged — while the result has no
`quote_args` and no `compute_unit_score` field (the `InternalQuoteRequest`
structure, like the source struct, does not contain them). -/
theorem quoteRequest_projection_identical_shared_fields (q : QuoteRequest) :
    (InternalQuoteRequest.ofQuoteRequest q).input_mint = q.input_mint ∧
    (InternalQuoteRequest.ofQuoteRequest q).output_mint = q.output_mint ∧
    (InternalQuoteRequest.ofQuoteRequest q).amount = q.amount ∧
    (InternalQuoteRequest.ofQuoteRequest q).swap_mode = q.swap_mode ∧
    (InternalQuoteRequest.ofQuoteRequest q).slippage_bps = q.slippage_bps ∧
    (InternalQuoteRequest.ofQuoteRequest q).auto_slippage = q.auto_slippage ∧
    (InternalQuoteRequest.ofQuoteRequest q).max_auto_slippage_bps = q.max_auto_slippage_bps ∧
    (InternalQuoteRequest.ofQuoteRequest q).compute_auto_slippage = q.compute_auto_slippage ∧
    (InternalQuoteRequest.ofQuoteRequest q).auto_slippage_collision_usd_value
      = q.auto_slippage_collision_usd_value ∧
    (InternalQuoteRequest.ofQuoteRequest q).minimize_slippage = q.minimize_slippage ∧
    (InternalQuoteRequest.ofQuoteRequest q).platform_fee_bps = q.platform_fee_bps ∧
    (InternalQuoteRequest.ofQuoteRequest q).dexes = q.dexes ∧
    (InternalQuoteRequest.ofQuoteRequest q).excluded_dexes = q.excluded_dexes ∧
    (InternalQuoteRequest.ofQuoteRequest q).only_direct_routes = q.only_direct_routes ∧
    (InternalQuoteRequest.ofQuoteRequest q).as_legacy_transaction = q.as_legacy_transaction ∧
    (InternalQuoteRequest.ofQuoteRequest q).restrict_intermediate_tokens
      = q.restrict_intermediate_tokens ∧
    (InternalQuoteRequest.ofQuoteRequest q).max_accounts = q.max_accounts ∧
    (InternalQuoteRequest.ofQuoteRequest q).quote_type = q.quote_type ∧
    (InternalQuoteRequest.ofQuoteRequest q).prefer_liquid_dexes = q.prefer_liquid_dexes :=
  ⟨rfl, rfl, rfl, rfl, rfl, rfl, rfl, rfl, rfl, rfl, rfl, rfl, rfl, rfl, rfl,
   rfl, rfl, rfl, rfl⟩

/-- C6: the conversion is a pure projection — its result does not depend
on the four dropped fields (`quote_args`, `compute_unit_score`,
`routing_constraints`, `token_category_based_intermediate_tokens`), and
every field of the result is the input's field of the same name, copied
unchanged with no validation. -/
theorem quoteRequest_projection_frame (q : QuoteRequest)
    (args : Option (List (String × String))) (score : Option ComputeUnitScore)
    (constraints : Option String) (tokCat : Option Bool) :
    InternalQuoteRequest.ofQuoteRequest
        { q with quote_args := args, compute_unit_score := score,
                 routing_constraints := constraints,
                 token_category_based_intermediate_tokens := tokCat }
      = InternalQuoteRequest.ofQuoteRequest q ∧
    InternalQuoteRequest.ofQuoteRequest q =
      ⟨q.input_mint, q.output_mint, q.amount, q.swap_mode, q.slippage_bps,
       q.auto_slippage, q.max_auto_slippage_bps, q.compute_auto_slippage,
       q.auto_slippage_collision_usd_value, q.minimize_slippage,
       q.platform_fee_bps, q.dexes, q.excluded_dexes, q.only_direct_routes,
       q.as_legacy_transaction, q.restrict_intermediate_tokens,
       q.max_accounts, q.quote_type, q.prefer_liquid_dexes⟩ :=
  ⟨rfl, rfl⟩

theorem decodeU64_num (n : Nat) (h : n < 2 ^ 64) : decodeU64 (.num n) = some n := by
  show decodeU64 (.num (Int.ofNat n)) = some n
  simp [decodeU64]
  omega

theorem decodeU32_num (n : Nat) (h : n < 2 ^ 32) : decodeU32 (.num n) = some n := by
  show decodeU32 (.num (Int.ofNat n)) = some n
  simp [decodeU32]
  omega

theorem decodePriorityLevel_of_serialize (pl : PriorityLevel) :
    decodePriorityLevel (serializePriorityLevel pl) = some pl := by
  cases pl <;> rfl

theorem decodePFL_of_tagged {j : Json} {v : PrioritizationFeeLamports}
    (h : decodePrioritizationFeeTagged j = some v) :
    decodePrioritizationFee j = some v := by
  unfold decodePrioritizationFee
  rw [h]

theorem decodePFL_of_untagged {j : Json} {v : PrioritizationFeeLamports}
    (h1 : decodePrioritizationFeeTagged j = none)
    (h2 : decodePrioritizationFeeUntagged j = some v) :
    decodePrioritizationFee j = some v := by
  unfold decodePrioritizationFee
  rw [h1]
  exact h2

theorem pflTagged_autoMultiplier (m : Nat) (hm : m < 2 ^ 32) :
    decodePrioritizationFeeTagged (.obj [("autoMultiplier", .num m)]) =
      some (.AutoMultiplier m) := by
  simp [decodePrioritizationFeeTagged, decodeU32_num m hm]

theorem pflTagged_jito (l : Nat) (hl : l < 2 ^ 64) :
    decodePrioritizationFeeTagged (.obj [("jitoTipLamports", .num l)]) =
      some (.JitoTipLamports l) := by
  simp [decodePrioritizationFeeTagged, decodeU64_num l hl]

theorem pflTagged_priorityLevel (pl : PriorityLevel) (ml : Nat) (g : Bool)
    (hml : ml < 2 ^ 64) :
    decodePrioritizationFeeTagged
        (.obj [("priorityLevelWithMaxLamports",
          .obj [("priorityLevel", serializePriorityLevel pl),
                ("maxLamports", .num ml), ("global", .bool g)])]) =
      some (.PriorityLevelWithMaxLamports pl ml g) := by
  simp [decodePrioritizationFeeTagged, decodePriorityLevelWithMax, findField,
    decodeGlobalField, decodePriorityLevel_of_serialize, decodeU64_num ml hml,
    decodeBool]

theorem pflUntagged_num (b : Nat) (hb : b < 2 ^ 64) :
    decodePrioritizationFeeUntagged (.num b) = some (.Lamports b) := by
  simp [decodePrioritizationFeeUntagged, unitVariant, decodeU64_num b hb]

/-- C2: each of the six canonical `PrioritizationFeeLamports` wire shapes
decodes to its corresponding variant, and encoding each variant produces
exactly that canonical shape (the wrapped object forms, `"auto"`, a bare
number, `"disabled"` — never the internal field layout), so every variant
round-trips through encode-then-decode. -/
theorem prioritizationFee_canonical_shapes
    (m l ml b : Nat) (pl : PriorityLevel) (g : Bool)
    (hm : m < 2 ^ 32) (hl : l < 2 ^ 64) (hml : ml < 2 ^ 64) (hb : b < 2 ^ 64) :
    (serializePrioritizationFee (.AutoMultiplier m) = .obj [("autoMultiplier", .num m)] ∧
     decodePrioritizationFee (.obj [("autoMultiplier", .num m)]) = some (.AutoMultiplier m)) ∧
    (serializePrioritizationFee (.JitoTipLamports l) = .obj [("jitoTipLamports", .num l)] ∧
     decodePrioritizationFee (.obj [("jitoTipLamports", .num l)]) = some (.JitoTipLamports l)) ∧
    (serializePrioritizationFee (.PriorityLevelWithMaxLamports pl ml g) =
       .obj [("priorityLevelWithMaxLamports",
         .obj [("priorityLevel", serializePriorityLevel pl),
               ("maxLamports", .num ml), ("global", .bool g)])] ∧
     decodePrioritizationFee
        (serializePrioritizationFee (.PriorityLevelWithMaxLamports pl ml g)) =
       some (.PriorityLevelWithMaxLamports pl ml g)) ∧
    (serializePrioritizationFee .Auto = .str "auto" ∧
     decodePrioritizationFee (.str "auto") = some .Auto) ∧
    (serializePrioritizationFee (.Lamports b) = .num b ∧
     decodePrioritizationFee (.num b) = some (.Lamports b)) ∧
    (serializePrioritizationFee .Disabled = .str "disabled" ∧
     decodePrioritizationFee (.str "disabled") = some .Disabled) := by
  exact ⟨⟨rfl, decodePFL_of_tagged (pflTagged_autoMultiplier m hm)⟩,
    ⟨rfl, decodePFL_of_tagged (pflTagged_jito l hl)⟩,
    ⟨rfl, decodePFL_of_tagged (pflTagged_priorityLevel pl ml g hml)⟩,
    ⟨rfl, rfl⟩,
    ⟨rfl, decodePFL_of_untagged rfl (pflUntagged_num b hb)⟩,
    ⟨rfl, rfl⟩⟩

/-- Witness for C2 at concrete payloads. -/
theorem prioritizationFee_canonical_shapes_witness :
    3 < 2 ^ 32 ∧ 5 < 2 ^ 64 ∧ 7 < 2 ^ 64 ∧ 11 < 2 ^ 64 ∧
    ((serializePrioritizationFee (.AutoMultiplier 3) = .obj [("autoMultiplier", .num 3)] ∧
      decodePrioritizationFee (.obj [("autoMultiplier", .num 3)]) = some (.AutoMultiplier 3)) ∧
     (serializePrioritizationFee (.JitoTipLamports 5) = .obj [("jitoTipLamports", .num 5)] ∧
      decodePrioritizationFee (.obj [("jitoTipLamports", .num 5)]) = some (.JitoTipLamports 5)) ∧
     (serializePrioritizationFee (.PriorityLevelWithMaxLamports .VeryHigh 7 true) =
        .obj [("priorityLevelWithMaxLamports",
          .obj [("priorityLevel", serializePriorityLevel .VeryHigh),
                ("maxLamports", .num 7), ("global", .bool true)])] ∧
      decodePrioritizationFee
         (serializePrioritizationFee (.PriorityLevelWithMaxLamports .VeryHigh 7 true)) =
        some (.PriorityLevelWithMaxLamports .VeryHigh 7 true)) ∧
     (serializePrioritizationFee .Auto = .str "auto" ∧
      decodePrioritizationFee (.str "auto") = some .Auto) ∧
     (serializePrioritizationFee (.Lamports 11) = .num 11 ∧
      decodePrioritizationFee (.num 11) = some (.Lamports 11)) ∧
     (serializePrioritizationFee .Disabled = .str "disabled" ∧
      decodePrioritizationFee (.str "disabled") = some .Disabled)) :=
  ⟨by norm_num, by norm_num, by norm_num, by norm_num,
   prioritizationFee_canonical_shapes 3 5 7 11 .VeryHigh true
     (by norm_num) (by norm_num) (by norm_num) (by norm_num)⟩

theorem unitVariant_shape {name : String} {j : Json} (h : unitVariant name j = true) :
    j = .str name ∨ j = .obj [(name, .null)] := by
  cases j with
  | str s =>
    left
    simp only [unitVariant, beq_iff_eq] at h
    rw [h]
  | obj fields =>
    right
    rcases fields with _ | ⟨⟨k, v⟩, rest⟩
    · simp [unitVariant] at h
    · rcases rest with _ | ⟨kv2, rest2⟩
      · cases v <;> simp [unitVariant] at h
        rw [h]
      · simp [unitVariant] at h
  | null => simp [unitVariant] at h
  | bool b => simp [unitVariant] at h
  | num n => simp [unitVariant] at h
  | arr items => simp [unitVariant] at h

theorem decodeU64_sound {j : Json} {n : Nat} (h : decodeU64 j = some n) :
    j = .num n ∧ n < 2 ^ 64 := by
  cases j with
  | num i =>
    cases i with
    | ofNat m =>
      simp only [decodeU64] at h
      split at h
      · obtain rfl : m = n := by injection h
        exact ⟨by norm_cast, by assumption⟩
      · exact absurd h (by simp)
    | negSucc m => simp [decodeU64] at h
  | null => simp [decodeU64] at h
  | bool b => simp [decodeU64] at h
  | str s => simp [decodeU64] at h
  | arr items => simp [decodeU64] at h
  | obj fields => simp [decodeU64] at h

theorem decodeU32_sound {j : Json} {n : Nat} (h : decodeU32 j = some n) :
    j = .num n ∧ n < 2 ^ 32 := by
  cases j with
  | num i =>
    cases i with
    | ofNat m =>
      simp only [decodeU32] at h
      split at h
      · obtain rfl : m = n := by injection h
        exact ⟨by norm_cast, by assumption⟩
      · exact absurd h (by simp)
    | negSucc m => simp [decodeU32] at h
  | null => simp [decodeU32] at h
  | bool b => simp [decodeU32] at h
  | str s => simp [decodeU32] at h
  | arr items => simp [decodeU32] at h
  | obj fields => simp [decodeU32] at h

theorem cupml_sound {j : Json} {v : ComputeUnitPriceMicroLamports}
    (h : decodeComputeUnitPrice j = some v) : computeUnitPriceShape v j := by
  unfold decodeComputeUnitPrice at h
  cases hd : decodeU64 j with
  | some n =>
    simp only [hd] at h
    obtain rfl : ComputeUnitPriceMicroLamports.MicroLamports n = v := by injection h
    exact (decodeU64_sound hd).1
  | none =>
    simp only [hd] at h
    split_ifs at h with hu
    obtain rfl : ComputeUnitPriceMicroLamports.Auto = v := by injection h
    exact unitVariant_shape hu

theorem decodePLWM_sound {j : Json} {v : PrioritizationFeeLamports}
    (h : decodePriorityLevelWithMax j = some v) :
    ∃ pl ml g, v = .PriorityLevelWithMaxLamports pl ml g := by
  cases j with
  | obj fields =>
    simp only [decodePriorityLevelWithMax, Option.bind_eq_bind, Option.bind_eq_some,
      Option.some.injEq] at h
    obtain ⟨pl, _, ml, _, g, _, hv⟩ := h
    exact ⟨pl, ml, g, by simpa using hv.symm⟩
  | null => simp [decodePriorityLevelWithMax] at h
  | bool b => simp [decodePriorityLevelWithMax] at h
  | num n => simp [decodePriorityLevelWithMax] at h
  | str s => simp [decodePriorityLevelWithMax] at h
  | arr items => simp [decodePriorityLevelWithMax] at h

theorem pflTagged_sound {j : Json} {v : PrioritizationFeeLamports}
    (h : decodePrioritizationFeeTagged j = some v) : prioritizationFeeShape v j := by
  cases j with
  | obj fields =>
    rcases fields with _ | ⟨⟨k, w⟩, rest⟩
    · simp [decodePrioritizationFeeTagged] at h
    · rcases rest with _ | ⟨kv2, rest2⟩
      · simp only [decodePrioritizationFeeTagged] at h
        split_ifs at h with h1 h2 h3
        · obtain ⟨m, hm, hv⟩ := Option.map_eq_some'.mp h
          obtain ⟨hw, _⟩ := decodeU32_sound hm
          subst hv
          subst h1
          subst hw
          exact rfl
        · obtain ⟨l, hl, hv⟩ := Option.map_eq_some'.mp h
          obtain ⟨hw, _⟩ := decodeU64_sound hl
          subst hv
          subst h2
          subst hw
          exact rfl
        · obtain ⟨pl, ml, g, hv⟩ := decodePLWM_sound h
          subst hv
          exact ⟨w, by rw [h3]⟩
      · simp [decodePrioritizationFeeTagged] at h
  | null => simp [decodePrioritizationFeeTagged] at h
  | bool b => simp [decodePrioritizationFeeTagged] at h
  | num n => simp [decodePrioritizationFeeTagged] at h
  | str s => simp [decodePrioritizationFeeTagged] at h
  | arr items => simp [decodePrioritizationFeeTagged] at h

theorem pflUntagged_sound {j : Json} {v : PrioritizationFeeLamports}
    (h : decodePrioritizationFeeUntagged j = some v) : prioritizationFeeShape v j := by
  unfold decodePrioritizationFeeUntagged at h
  by_cases hauto : unitVariant "auto" j = true
  · rw [if_pos hauto] at h
    obtain rfl : PrioritizationFeeLamports.Auto = v := by injection h
    exact unitVariant_shape hauto
  · rw [if_neg hauto] at h
    cases hd : decodeU64 j with
    | some n =>
      simp only [hd] at h
      obtain rfl : PrioritizationFeeLamports.Lamports n = v := by injection h
      exact (decodeU64_sound hd).1
    | none =>
      simp only [hd] at h
      by_cases hdis : unitVariant "disabled" j = true
      · rw [if_pos hdis] at h
        obtain rfl : PrioritizationFeeLamports.Disabled = v := by injection h
        exact unitVariant_shape hdis
      · rw [if_neg hdis] at h
        exact absurd h (by simp)

theorem pfl_sound {j : Json} {v : PrioritizationFeeLamports}
    (h : decodePrioritizationFee j = some v) : prioritizationFeeShape v j := by
  unfold decodePrioritizationFee at h
  cases ht : decodePrioritizationFeeTagged j with
  | some w =>
    simp only [ht] at h
    obtain rfl : w = v := by injection h
    exact pflTagged_sound ht
  | none =>
    simp only [ht] at h
    exact pflUntagged_sound h

/-- C9: for both tagged unions, a successful decode only ever comes from a
matching candidate wire shape — so an input matching none of the shapes
decodes to an error, never to a silently substituted `Auto` or any other
variant; a few concrete unrecognized payloads are checked to fail. -/
theorem union_decode_error_on_unrecognized :
    (∀ j, match decodeComputeUnitPrice j with
      | none => True
      | some v => computeUnitPriceShape v j) ∧
    (∀ j, match decodePrioritizationFee j with
      | none => True
      | some v => prioritizationFeeShape v j) ∧
    decodeComputeUnitPrice (.str "Auto") = none ∧
    decodeComputeUnitPrice (.bool true) = none ∧
    decodeComputeUnitPrice (.arr []) = none ∧
    decodePrioritizationFee (.str "bogus") = none ∧
    decodePrioritizationFee (.obj [("unknownKey", .num 1)]) = none ∧
    decodePrioritizationFee .null = none := by
  refine ⟨fun j => ?_, fun j => ?_, rfl, rfl, rfl, rfl, rfl, rfl⟩
  · cases h : decodeComputeUnitPrice j with
    | none => trivial
    | some v => exact cupml_sound h
  · cases h : decodePrioritizationFee j with
    | none => trivial
    | some v => exact pfl_sound h

theorem findField_cons_ne {key k : String} {v : Json} {rest : List (String × Json)}
    (h : k ≠ key) : findField key ((k, v) :: rest) = findField key rest := by
  simp [findField, h]

theorem findField_append_of_absent {key : String} {l1 l2 : List (String × Json)}
    (h : ∀ kv ∈ l1, kv.1 ≠ key) : findField key (l1 ++ l2) = findField key l2 := by
  induction l1 with
  | nil => rfl
  | cons kv rest ih =>
    obtain ⟨k, v⟩ := kv
    rw [List.cons_append, findField_cons_ne (h (k, v) (List.mem_cons_self ..))]
    exact ih fun kv2 hkv => h kv2 (List.mem_cons_of_mem _ hkv)

/-- C4 (counterexample): serializing a `KeyedUiAccount` whose `params` is
absent does emit a `"params"` key — with value `null` — because the field
carries no skip attribute. -/
theorem keyedUiAccount_emits_params_null :
    exampleKeyedUiAccount.params = none ∧
    findField "params" (serializeKeyedUiAccountFields exampleKeyedUiAccount) =
      some .null :=
  ⟨rfl, rfl⟩

/-- C4 (amended): with `params` absent, serialization emits `pubkey`, the
flattened `ui_account` fields at the same nesting level, and a
`"params": null` entry (rather than omitting the key); decoding the
serialized object recovers the original value, the `null` accepted as an
absent `params`. -/
theorem keyedUiAccount_roundtrip_params_absent (pk : String)
    (ui : List (String × Json))
    (hpk : ∀ kv ∈ ui, kv.1 ≠ "pubkey") (hpar : ∀ kv ∈ ui, kv.1 ≠ "params") :
    serializeKeyedUiAccount ⟨pk, ui, none⟩ =
      .obj (("pubkey", .str pk) :: ui ++ [("params", .null)]) ∧
    findField "params" (serializeKeyedUiAccountFields ⟨pk, ui, none⟩) = some .null ∧
    decodeKeyedUiAccount (serializeKeyedUiAccount ⟨pk, ui, none⟩) =
      some ⟨pk, ui, none⟩ := by
  have hparams : findField "params" (("pubkey", Json.str pk) :: ui
      ++ [("params", Json.null)]) = some .null := by
    rw [List.cons_append, findField_cons_ne (by decide),
      findField_append_of_absent hpar]
    rfl
  refine ⟨rfl, hparams, ?_⟩
  have hpub : findField "pubkey" (("pubkey", Json.str pk) :: ui
      ++ [("params", Json.null)]) = some (.str pk) := by
    simp [findField]
  have hfilter : (("pubkey", Json.str pk) :: ui
      ++ [("params", Json.null)]).filter isFlattenedKey = ui := by
    have hui : ui.filter isFlattenedKey = ui :=
      List.filter_eq_self.mpr fun kv hkv => by
        simp [isFlattenedKey, hpk kv hkv, hpar kv hkv]
    simp [List.filter_cons, List.filter_append, hui, isFlattenedKey]
  show decodeKeyedUiAccount
      (.obj (("pubkey", Json.str pk) :: ui ++ [("params", Json.null)])) =
    some ⟨pk, ui, none⟩
  simp only [decodeKeyedUiAccount, hpub, hparams, hfilter]
  rfl

/-- Witness for C4's amended round-trip at a concrete account. -/
theorem keyedUiAccount_roundtrip_params_absent_witness :
    (∀ kv ∈ [("lamports", Json.num 5)], kv.1 ≠ "pubkey") ∧
    (∀ kv ∈ [("lamports", Json.num 5)], kv.1 ≠ "params") ∧
    (serializeKeyedUiAccount ⟨"acct", [("lamports", Json.num 5)], none⟩ =
       .obj [("pubkey", .str "acct"), ("lamports", .num 5), ("params", .null)] ∧
     findField "params"
        (serializeKeyedUiAccountFields ⟨"acct", [("lamports", Json.num 5)], none⟩) =
       some .null ∧
     decodeKeyedUiAccount
        (serializeKeyedUiAccount ⟨"acct", [("lamports", Json.num 5)], none⟩) =
       some ⟨"acct", [("lamports", Json.num 5)], none⟩) :=
  ⟨by simp, by simp,
   keyedUiAccount_roundtrip_params_absent "acct" [("lamports", Json.num 5)]
     (by simp) (by simp)⟩

/-- C10: in a serialized `QuoteResponse`, `computedAutoSlippage` and
`usesQuoteMinimizingSlippage` are present exactly when their fields are
`some` (omitted entirely when `none`, by `skip_serializing_if`), while
`platformFee` is always present — as `null` when the field is `none`. -/
theorem quoteResponse_option_field_encoding (qr : QuoteResponse) :
    findField "computedAutoSlippage" (serializeQuoteResponseFields qr) =
      (match qr.computed_auto_slippage with
       | none => none
       | some v => some (.num v)) ∧
    findField "usesQuoteMinimizingSlippage" (serializeQuoteResponseFields qr) =
      (match qr.uses_quote_minimizing_slippage with
       | none => none
       | some b => some (.bool b)) ∧
    findField "platformFee" (serializeQuoteResponseFields qr) =
      some (match qr.platform_fee with
       | none => .null
       | some pf => serializePlatformFee pf) := by
  obtain ⟨im, ia, om, oa, ot, sm, sb, cas, uqms, pfo, pip, rp, cs, tt⟩ := qr
  cases cas <;> cases uqms <;> cases pfo <;>
    exact ⟨rfl, rfl, rfl⟩

theorem opt_bind_some {α β : Type} {x : Option α} {f : α → Option β} {b : β}
    (h : (x >>= f) = some b) : ∃ a, x = some a ∧ f a = some b := by
  cases x with
  | none => simp at h
  | some a => exact ⟨a, rfl, h⟩

theorem decField_absent {α : Type} {key : String} {dflt : α} {dec : Json → Option α}
    {fields : List (String × Json)} {x : α}
    (hn : findField key fields = none) (h : decField key dflt dec fields = some x) :
    x = dflt := by
  simp [decField, hn] at h
  exact h.symm

theorem decodeTC_fields {fields : List (String × Json)} {tc : TransactionConfig}
    (h : decodeTransactionConfig (.obj fields) = some tc) :
    decField "wrapAndUnwrapSol" true decodeBool fields = some tc.wrap_and_unwrap_sol ∧
    decField "allowOptimizedWrappedSolTokenAccount" false decodeBool fields
      = some tc.allow_optimized_wrapped_sol_token_account ∧
    decField "feeAccount" none decodeOptPubkey fields = some tc.fee_account ∧
    decField "destinationTokenAccount" none decodeOptPubkey fields
      = some tc.destination_token_account ∧
    decField "trackingAccount" none decodeOptPubkey fields = some tc.tracking_account ∧
    decField "computeUnitPriceMicroLamports" none
      (decodeOptionWith decodeComputeUnitPrice) fields
      = some tc.compute_unit_price_micro_lamports ∧
    decField "prioritizationFeeLamports" none
      (decodeOptionWith decodePrioritizationFee) fields
      = some tc.prioritization_fee_lamports ∧
    decField "dynamicComputeUnitLimit" false decodeBool fields
      = some tc.dynamic_compute_unit_limit ∧
    decField "asLegacyTransaction" false decodeBool fields
      = some tc.as_legacy_transaction ∧
    decField "useSharedAccounts" none (decodeOptionWith decodeBool) fields
      = some tc.use_shared_accounts ∧
    decField "useTokenLedger" false decodeBool fields = some tc.use_token_ledger ∧
    decField "skipUserAccountsRpcCalls" false decodeBool fields
      = some tc.skip_user_accounts_rpc_calls ∧
    decField "keyedUiAccounts" none
      (decodeOptionWith (decodeListWith decodeKeyedUiAccount)) fields
      = some tc.keyed_ui_accounts ∧
    decField "programAuthorityId" none (decodeOptionWith decodeU8) fields
      = some tc.program_authority_id ∧
    decField "dynamicSlippage" none (decodeOptionWith decodeDynamicSlippage) fields
      = some tc.dynamic_slippage ∧
    decField "blockhashSlotsToExpiry" none (decodeOptionWith decodeU8) fields
      = some tc.blockhash_slots_to_expiry ∧
    decField "correctLastValidBlockHeight" false decodeBool fields
      = some tc.correct_last_valid_block_height := by
  obtain ⟨wa, hwa, h⟩ := opt_bind_some h
  obtain ⟨ao, hao, h⟩ := opt_bind_some h
  obtain ⟨fa, hfa, h⟩ := opt_bind_some h
  obtain ⟨da, hda, h⟩ := opt_bind_some h
  obtain ⟨ta, hta, h⟩ := opt_bind_some h
  obtain ⟨cu, hcu, h⟩ := opt_bind_some h
  obtain ⟨pf, hpf, h⟩ := opt_bind_some h
  obtain ⟨dc, hdc, h⟩ := opt_bind_some h
  obtain ⟨al, hal, h⟩ := opt_bind_some h
  obtain ⟨us, hus, h⟩ := opt_bind_some h
  obtain ⟨ul, hul, h⟩ := opt_bind_some h
  obtain ⟨sk, hsk, h⟩ := opt_bind_some h
  obtain ⟨ka, hka, h⟩ := opt_bind_some h
  obtain ⟨pa, hpa, h⟩ := opt_bind_some h
  obtain ⟨ds, hds, h⟩ := opt_bind_some h
  obtain ⟨bs, hbs, h⟩ := opt_bind_some h
  obtain ⟨cl, hcl, h⟩ := opt_bind_some h
  obtain rfl : TransactionConfig.mk wa ao fa da ta cu pf dc al us ul sk ka pa ds bs cl
      = tc := Option.some.inj h
  exact ⟨hwa, hao, hfa, hda, hta, hcu, hpf, hdc, hal, hus, hul, hsk, hka, hpa,
    hds, hbs, hcl⟩

/-- C5: decoding `TransactionConfig` from the empty object yields exactly
the documented default (`wrap_and_unwrap_sol = true`, every other boolean
`false`, every `Option` `none`); and in any successful decode, every field
whose key is absent from the wire object is filled from that default. -/
theorem transactionConfig_default_decode :
    decodeTransactionConfig (.obj []) = some TransactionConfig.default ∧
    ∀ fields tc, decodeTransactionConfig (.obj fields) = some tc →
      ((findField "wrapAndUnwrapSol" fields = none →
          tc.wrap_and_unwrap_sol = true) ∧
       (findField "allowOptimizedWrappedSolTokenAccount" fields = none →
          tc.allow_optimized_wrapped_sol_token_account = false) ∧
       (findField "feeAccount" fields = none → tc.fee_account = none) ∧
       (findField "destinationTokenAccount" fields = none →
          tc.destination_token_account = none) ∧
       (findField "trackingAccount" fields = none → tc.tracking_account = none) ∧
       (findField "computeUnitPriceMicroLamports" fields = none →
          tc.compute_unit_price_micro_lamports = none) ∧
       (findField "prioritizationFeeLamports" fields = none →
          tc.prioritization_fee_lamports = none) ∧
       (findField "dynamicComputeUnitLimit" fields = none →
          tc.dynamic_compute_unit_limit = false) ∧
       (findField "asLegacyTransaction" fields = none →
          tc.as_legacy_transaction = false) ∧
       (findField "useSharedAccounts" fields = none →
          tc.use_shared_accounts = none) ∧
       (findField "useTokenLedger" fields = none → tc.use_token_ledger = false) ∧
       (findField "skipUserAccountsRpcCalls" fields = none →
          tc.skip_user_accounts_rpc_calls = false) ∧
       (findField "keyedUiAccounts" fields = none → tc.keyed_ui_accounts = none) ∧
       (findField "programAuthorityId" fields = none →
          tc.program_authority_id = none) ∧
       (findField "dynamicSlippage" fields = none → tc.dynamic_slippage = none) ∧
       (findField "blockhashSlotsToExpiry" fields = none →
          tc.blockhash_slots_to_expiry = none) ∧
       (findField "correctLastValidBlockHeight" fields = none →
          tc.correct_last_valid_block_height = false)) := by
  refine ⟨rfl, ?_⟩
  intro fields tc h
  obtain ⟨h1, h2, h3, h4, h5, h6, h7, h8, h9, h10, h11, h12, h13, h14, h15,
    h16, h17⟩ := decodeTC_fields h
  exact ⟨fun hn => decField_absent hn h1, fun hn => decField_absent hn h2,
    fun hn => decField_absent hn h3, fun hn => decField_absent hn h4,
    fun hn => decField_absent hn h5, fun hn => decField_absent hn h6,
    fun hn => decField_absent hn h7, fun hn => decField_absent hn h8,
    fun hn => decField_absent hn h9, fun hn => decField_absent hn h10,
    fun hn => decField_absent hn h11, fun hn => decField_absent hn h12,
    fun hn => decField_absent hn h13, fun hn => decField_absent hn h14,
    fun hn => decField_absent hn h15, fun hn => decField_absent hn h16,
    fun hn => decField_absent hn h17⟩

/-- Witness for C5's absent-field clause: decoding an object carrying only
`asLegacyTransaction` leaves the absent `useTokenLedger` at its default. -/
theorem transactionConfig_default_decode_witness :
    decodeTransactionConfig (.obj [("asLegacyTransaction", .bool true)]) =
      some { TransactionConfig.default with as_legacy_transaction := true } ∧
    findField "useTokenLedger" [("asLegacyTransaction", Json.bool true)] = none ∧
    ({ TransactionConfig.default with as_legacy_transaction := true }
        : TransactionConfig).use_token_ledger = false := by
  refine ⟨rfl, rfl, ?_⟩
  have h := transactionConfig_default_decode.2 [("asLegacyTransaction", .bool true)]
    { TransactionConfig.default with as_legacy_transaction := true } rfl
  exact h.2.2.2.2.2.2.2.2.2.2.1 rfl

end JupiterSwap
